import Mathlib

/-!
Verification development for the uelogic meter-computation engine.

The definitions below are a shallow embedding of the Python/Django source:
  * `api/models.py` — the `Reading` data model (kind / classification / source
    choice enums, the `unique_together ("meter", "ts")` constraint) and the
    `Formula.clean` window validation;
  * `api/management/commands/compute_register_consumption.py` — the
    consumption Differencer (`Command.handle`);
  * `api/management/commands/load_allocations.py` — the allocation loader;
  * `api/management/commands/load_formulas.py` — the formula loader.

Timestamps are modelled as `Nat` (UTC instants are totally ordered), decimal
reading values as `Int` (Django `DecimalField(18,6)` values are exact integer
multiples of 10⁻⁶, so differences are exact integer arithmetic in micro-units),
and formula-evaluation values as `ℚ` (exact decimal arithmetic with division).
Python exceptions are modelled with `Except`: a Django management command that
raises inside `transaction.atomic()` rolls back, so an `Except.error` run
leaves the store unchanged.
-/

namespace UELogic

/-! ## Data model (`api/models.py`) -/

/-- `Reading.Classification` choices: Actual, Estimated, Manual, System. -/
inductive Classification
  | ACTUAL
  | ESTIMATED
  | MANUAL
  | SYSTEM
deriving DecidableEq, Repr

/-- `Reading.Source` choices.  The source defines exactly three members:
API, CSV, Manual — there is no `SYSTEM` member. -/
inductive Source
  | API
  | CSV
  | MANUAL
deriving DecidableEq, Repr

/-- The stored string value of each `Reading.Source` member
(`API = "API", "API"` etc. in the TextChoices declaration). -/
def sourceValue : Source → String
  | .API => "API"
  | .CSV => "CSV"
  | .MANUAL => "Manual"

/-- Python attribute lookup on the `Reading.Source` enum class: accessing a
member name returns the member, accessing any other attribute raises
`AttributeError` (modelled as `none`). -/
def Source.attrLookup : String → Option Source :=
  fun s =>
    if s = "API" then some .API
    else if s = "CSV" then some .CSV
    else if s = "MANUAL" then some .MANUAL
    else none

/-- `Reading.Kind` choices: Accumulated, Consumption. -/
inductive Kind
  | ACCUMULATED
  | CONSUMPTION
deriving DecidableEq, Repr

/-- `Meter.MeterType` choices. -/
inductive MeterType
  | FISCAL
  | SUB
  | VIRTUAL
deriving DecidableEq, Repr

/-- The fields of `api.models.Meter` used by the Differencer: primary key,
building name (for the `--site` scope filter), type, active flag. -/
structure Meter where
  id : Nat
  building : String
  meter_type : MeterType
  is_active : Bool
deriving DecidableEq, Repr

/-- A row of the `Reading` table (`api.models.Reading`). -/
structure ReadingRow where
  meter : Nat
  ts : Nat
  value : Int
  unit : String
  classification : Classification
  source : Source
  kind : Kind
deriving DecidableEq, Repr

/-- The reading store: the `Reading` table contents. -/
abbrev Store := List ReadingRow

/-- Runtime errors a command run can surface.  `attributeError` models a
Python `AttributeError`; `integrityError` a database unique-constraint
violation. -/
inductive PyErr
  | attributeError
  | integrityError
deriving DecidableEq, Repr

/-- Insert a `Reading` row.  `Reading.Meta` declares
`unique_together = ("meter", "ts")` — the `kind` column is NOT part of the
key — so an insert whose (meter, ts) collides with any stored row raises
`IntegrityError`. -/
def insertReading (db : Store) (r : ReadingRow) : Except PyErr Store :=
  if db.any (fun q => q.meter == r.meter && q.ts == r.ts) then
    .error .integrityError
  else
    .ok (db ++ [r])

/-- The `defaults=` payload of the Differencer's
`Reading.objects.update_or_create` call. -/
structure RDefaults where
  value : Int
  unit : String
  classification : Classification
  source : Source
deriving DecidableEq, Repr

/-- `Reading.objects.update_or_create(meter=…, ts=…, kind=…, defaults=…)`:
look up by the three lookup kwargs; update the matched row with the defaults,
or create a fresh row (which is subject to the (meter, ts) unique
constraint). -/
def updateOrCreate (db : Store) (m ts : Nat) (k : Kind) (d : RDefaults) :
    Except PyErr Store :=
  if db.any (fun q => q.meter == m && q.ts == ts && q.kind == k) then
    .ok (db.map fun q =>
      if q.meter == m && q.ts == ts && q.kind == k then
        { q with value := d.value, unit := d.unit,
                 classification := d.classification, source := d.source }
      else q)
  else
    insertReading db ⟨m, ts, d.value, d.unit, d.classification, d.source, k⟩

/-! ## The consumption Differencer
(`api/management/commands/compute_register_consumption.py`) -/

/-- Python `str.strip()` over a `None`-able string, then `or None`:
`(opts.get("site") or "").strip() or None`. -/
def isSpaceChar (c : Char) : Bool :=
  c = ' ' || c = '\t' || c = '\n' || c = '\r'

/-- Python `str.strip()`: drop leading and trailing whitespace. -/
def norm (s : String) : String :=
  String.mk (((s.data.dropWhile isSpaceChar).reverse.dropWhile isSpaceChar).reverse)

/-- `site = (opts.get("site") or "").strip() or None`. -/
def normSite (s : Option String) : Option String :=
  match s with
  | none => none
  | some s => let t := norm s; if t = "" then none else some t

/-- The parsed command-line options declared by `add_arguments`:
`--site`, `--since`, `--until`. -/
structure Opts where
  site : Option String
  since : Option Nat
  untilTs : Option Nat
deriving DecidableEq, Repr

/-- Stable insertion into a ts-ordered list (helper for `order_by("ts")`). -/
def insertByTs (r : ReadingRow) : List ReadingRow → List ReadingRow
  | [] => [r]
  | q :: qs => if q.ts ≤ r.ts then q :: insertByTs r qs else r :: q :: qs

/-- `order_by("ts")`: sort rows by ascending timestamp. -/
def sortByTs : List ReadingRow → List ReadingRow
  | [] => []
  | r :: rs => insertByTs r (sortByTs rs)

/-- The per-meter fetch of the Differencer:
`m.readings.filter(kind=ACCUMULATED).order_by("ts").values_list("ts", "value", "unit")`.
Note that `handle` applies no `ts` filter — the parsed `--since`/`--until`
options are never used (the code comments
"you can add date filters if passed"). -/
def fetchReads (db : Store) (mid : Nat) : List (Nat × Int × String) :=
  (sortByTs (db.filter fun r => r.meter == mid && r.kind == Kind.ACCUMULATED)).map
    fun r => (r.ts, r.value, r.unit)

/-- `zip(reads, reads[1:])`: the adjacent pairs of the fetched sequence. -/
def zipPairs (xs : List (Nat × Int × String)) :
    List ((Nat × Int × String) × (Nat × Int × String)) :=
  xs.zip xs.tail

/-- One emission of the Differencer: the `update_or_create` call for a pair
with non-negative delta.  Building the `defaults` dict evaluates
`Reading.Classification.SYSTEM` (a member that exists) and then
`Reading.Source.SYSTEM` — an attribute lookup on the `Source` enum, which has
no such member, so the lookup raises `AttributeError` before any write. -/
def emitPair (db : Store) (mid : Nat) (unit : String) (t1 : Nat) (delta : Int) :
    Except PyErr Store := do
  let cls := Classification.SYSTEM
  let src ← match Source.attrLookup "SYSTEM" with
            | some s => Except.ok s
            | none => Except.error PyErr.attributeError
  updateOrCreate db mid t1 Kind.CONSUMPTION ⟨delta, unit, cls, src⟩

/-- The inner loop of `handle`: for each adjacent pair, compute
`delta = v1 - v0`; skip (`continue`) when `delta < 0`, otherwise emit at `t1`
and increment `processed`. -/
def pairLoop (mid : Nat) (unit : String) :
    List ((Nat × Int × String) × (Nat × Int × String)) → Store → Nat →
    Except PyErr (Store × Nat)
  | [], db, processed => .ok (db, processed)
  | ((_, v0, _), (t1, v1, _)) :: rest, db, processed =>
    let delta := v1 - v0
    if delta < 0 then
      pairLoop mid unit rest db processed
    else do
      let db' ← emitPair db mid unit t1 delta
      pairLoop mid unit rest db' (processed + 1)

/-- The per-meter body of `handle`: fetch the accumulated reads, skip the
meter when fewer than two, otherwise take `unit = reads[0][2]` and run the
pair loop. -/
def handleMeter (db : Store) (m : Meter) (processed : Nat) :
    Except PyErr (Store × Nat) :=
  match fetchReads db m.id with
  | r0 :: r1 :: rest => pairLoop m.id r0.2.2 (zipPairs (r0 :: r1 :: rest)) db processed
  | _ => .ok (db, processed)

/-- The loop over the selected meters. -/
def metersLoop : List Meter → Store → Nat → Except PyErr (Store × Nat)
  | [], db, processed => .ok (db, processed)
  | m :: rest, db, processed => do
    let (db', p') ← handleMeter db m processed
    metersLoop rest db' p'

/-- The meter queryset of `handle`:
`Meter.objects.filter(meter_type=SUB, is_active=True)` and, when a site was
given, `.filter(building__name=site)`. -/
def meterQueryset (meters : List Meter) (site : Option String) : List Meter :=
  let base := meters.filter fun m => m.meter_type == MeterType.SUB && m.is_active
  match site with
  | some s => base.filter fun m => m.building == s
  | none => base

/-- `Command.handle` of `compute_register_consumption`.  Returns the final
store and the summary line written to stdout, or the propagated exception.
The `since`/`until` members of `opts` are parsed by `add_arguments` but
`handle` never reads them. -/
def handle (db : Store) (meters : List Meter) (opts : Opts) :
    Except PyErr (Store × String) :=
  let site := normSite opts.site
  let ms := meterQueryset meters site
  if ms.isEmpty then
    .ok (db, "No sub meters to process.")
  else
    match metersLoop ms db 0 with
    | .error e => .error e
    | .ok (db', processed) =>
      .ok (db', s!"Wrote/updated {processed} consumption intervals.")

/-- The reading store after a command invocation: `handle` runs inside
`transaction.atomic()`, so an exception rolls the store back to its initial
contents. -/
def handleFinalStore (db : Store) (meters : List Meter) (opts : Opts) : Store :=
  match handle db meters opts with
  | .ok (db', _) => db'
  | .error _ => db

/-- The data flow of the pair loop (lines 49–66): the
`(t1, delta, unit)` payloads the loop passes to `update_or_create`, one per
adjacent pair with non-negative delta, each carrying the single `unit`
variable bound to `reads[0][2]`. -/
def diffEmissions (unit : String) :
    List ((Nat × Int × String) × (Nat × Int × String)) → List (Nat × Int × String)
  | [] => []
  | ((_, v0, _), (t1, v1, _)) :: rest =>
    let delta := v1 - v0
    if delta < 0 then diffEmissions unit rest
    else (t1, delta, unit) :: diffEmissions unit rest

/-- The write payloads the Differencer computes for one meter. -/
def meterEmissions (db : Store) (m : Meter) : List (Nat × Int × String) :=
  match fetchReads db m.id with
  | r0 :: r1 :: rest => diffEmissions r0.2.2 (zipPairs (r0 :: r1 :: rest))
  | _ => []

/-- Whether a meter's fetched accumulated sequence contains an adjacent pair
with negative delta. -/
def hasNegativeDelta (db : Store) (mid : Nat) : Bool :=
  (zipPairs (fetchReads db mid)).any fun pq => pq.2.2.1 < pq.1.2.1

/-! ## Allocation loader (`api/management/commands/load_allocations.py`)

The loop body for one CSV data row, in source order: self-allocation check on
the normalized identifiers, percent parse (`float` of the cell with trailing
`%` stripped), range check, parent and child meter lookup, then upsert of the
`VirtualAllocation` row keyed by (parent, child).  The whole loop runs inside
`transaction.atomic()`, so any raised `CommandError` discards every write of
the invocation.  The org-resolution branch is modelled in its resolved form
(one fixed organization), and the `float` parse outcome of the percent cell
is carried as `Option ℚ` (`none` models a `ValueError`). -/

/-- A parsed CSV data row of the allocations file: parent identifier cell,
child identifier cell, and the outcome of `float(norm(percent).rstrip("%"))`. -/
structure AllocRow where
  parent : String
  child : String
  pct : Option ℚ
deriving DecidableEq

/-- A stored `VirtualAllocation` row (meters denoted by their org-scoped
identifier). -/
structure AllocEdge where
  parent : String
  child : String
  percent : ℚ
deriving DecidableEq

/-- Errors of the loader commands: `CommandError` (with the failing row's
message class). -/
inductive LoadErr
  | commandError
deriving DecidableEq, Repr

/-- `Meter.objects.get(org=…, identifier=…)`: exactly one match required;
`DoesNotExist` and `MultipleObjectsReturned` both become `CommandError`. -/
def meterGet (meters : List String) (ident : String) : Except LoadErr String :=
  match meters.filter (fun i => i == ident) with
  | [i] => .ok i
  | _ => .error .commandError

/-- `VirtualAllocation.objects.update_or_create(parent=…, child=…,
defaults={"percent": pct})`; returns the new store and the `created` flag. -/
def allocUpsert (edges : List AllocEdge) (p c : String) (pct : ℚ) :
    List AllocEdge × Bool :=
  if edges.any (fun e => e.parent == p && e.child == c) then
    (edges.map fun e =>
      if e.parent == p && e.child == c then { e with percent := pct } else e,
     false)
  else
    (edges ++ [⟨p, c, pct⟩], true)

/-- Loop state of the allocation loader: the edge store and the
(created, updated, total) counters. -/
structure AllocState where
  edges : List AllocEdge
  created : Nat
  updated : Nat
  total : Nat
deriving DecidableEq

/-- One iteration of the allocation loader's row loop (lines 88–146). -/
def allocRowStep (meters : List String) (dry : Bool) (st : AllocState)
    (row : AllocRow) : Except LoadErr AllocState := do
  let st := { st with total := st.total + 1 }
  let parent_ident := norm row.parent
  let child_ident := norm row.child
  if parent_ident = child_ident then
    throw LoadErr.commandError
  else
    match row.pct with
    | none => throw LoadErr.commandError
    | some pct =>
      if pct < 0 ∨ pct > 100 then
        throw LoadErr.commandError
      else do
        let p ← meterGet meters parent_ident
        let c ← meterGet meters child_ident
        if dry then
          pure st
        else
          let (edges', createdFlag) := allocUpsert st.edges p c pct
          if createdFlag then
            pure { st with edges := edges', created := st.created + 1 }
          else
            pure { st with edges := edges', updated := st.updated + 1 }

/-- The allocation loader's row loop. -/
def allocLoop (meters : List String) (dry : Bool) :
    List AllocRow → AllocState → Except LoadErr AllocState
  | [], st => .ok st
  | row :: rest, st => do
    let st' ← allocRowStep meters dry st row
    allocLoop meters dry rest st'

/-- `Command.handle` of `load_allocations`, from the start of the atomic
block: processes the data rows against the current edge store. -/
def loadAllocations (edges : List AllocEdge) (meters : List String)
    (rows : List AllocRow) (dry : Bool) : Except LoadErr AllocState :=
  allocLoop meters dry rows ⟨edges, 0, 0, 0⟩

/-- The edge store after a `load_allocations` invocation: the row loop runs
inside `transaction.atomic()`, so an error rolls every write back. -/
def loadAllocationsFinal (edges : List AllocEdge) (meters : List String)
    (rows : List AllocRow) (dry : Bool) : List AllocEdge :=
  match loadAllocations edges meters rows dry with
  | .ok st => st.edges
  | .error _ => edges

/-! ## Formula model and loader (`api/models.py`, `load_formulas.py`) -/

/-- A stored `Formula` row: target meter pk, expression text, inclusive
start, exclusive-or-open end.  `start` is a non-null column. -/
structure FormulaRec where
  target : Nat
  expression : String
  start : Nat
  endTs : Option Nat
deriving DecidableEq

/-- `Formula.clean` (models.py lines 142–146): raise `ValidationError` when
`end` is present and `start >= end`. -/
def Formula.clean (start : Nat) (endTs : Option Nat) : Except LoadErr Unit :=
  match endTs with
  | some e => if start ≥ e then .error .commandError else .ok ()
  | none => .ok ()

/-- Errors of the formula loader run: `CommandError` from the explicit
window check, Python `TypeError` (comparing `None` to a datetime), and
`IntegrityError` (null `start` reaching the non-null column). -/
inductive FLoadErr
  | commandError
  | typeError
  | integrityError
deriving DecidableEq, Repr

/-- The meter a formula row resolves to (only the fields the loader
checks). -/
structure FMeter where
  id : Nat
  meter_type : MeterType
deriving DecidableEq

/-- A parsed CSV data row of the formulas file, after cell extraction:
the lower-cased MeterKind cell (or its default "sub"), the expression cell,
the `parse_utc` outcomes of the start and end cells (`none` = blank cell),
and the outcome of `resolve_target_meter` for the row's
serial/MPxN/identifier cells (`none` = `CommandError` inside resolution). -/
structure FormulaRow where
  kind : String
  expression : String
  start : Option Nat
  endTs : Option Nat
  resolved : Option FMeter
deriving DecidableEq

/-- `Formula.objects.update_or_create(target_meter=…, start=…, end=…,
defaults={"expression": …})`.  A `None` start can match no stored row
(the column is non-null), so it reaches the insert and raises
`IntegrityError`. -/
def formulaUpsert (fs : List FormulaRec) (t : Nat) (start : Option Nat)
    (endTs : Option Nat) (expr : String) :
    Except FLoadErr (List FormulaRec × Bool) :=
  match start with
  | none => .error .integrityError
  | some s =>
    if fs.any (fun f => f.target == t && f.start == s && f.endTs == endTs) then
      .ok (fs.map fun f =>
        if f.target == t && f.start == s && f.endTs == endTs then
          { f with expression := expr }
        else f,
       false)
    else
      .ok (fs ++ [⟨t, expr, s, endTs⟩], true)

/-- Loop state of the formula loader. -/
structure FormulaState where
  formulas : List FormulaRec
  created : Nat
  updated : Nat
  total : Nat
deriving DecidableEq

/-- The window check of the row loop (lines 233–235):
`if end_dt is not None and start_dt >= end_dt: raise CommandError(...)`.
A blank start cell makes the Python comparison `None >= end_dt` raise
`TypeError`. -/
def windowCheck (row : FormulaRow) : Except FLoadErr Unit :=
  match row.endTs with
  | some e =>
    match row.start with
    | none => throw FLoadErr.typeError
    | some s => if s ≥ e then throw FLoadErr.commandError else pure ()
  | none => pure ()

/-- The tail of a row-loop iteration after the window check (lines 242–275):
target resolution (`CommandError` when `resolve_target_meter` fails),
meter-type enforcement, dry-run skip, then the upsert keyed by
(target, start, end). -/
def resolveAndStore (dry : Bool) (st : FormulaState) (row : FormulaRow) :
    Except FLoadErr FormulaState :=
  match row.resolved with
  | none => throw FLoadErr.commandError
  | some target =>
    if target.meter_type ≠ (if row.kind = "virtual" then MeterType.VIRTUAL else MeterType.SUB) then
      throw FLoadErr.commandError
    else if dry then
      pure st
    else
      match formulaUpsert st.formulas target.id row.start row.endTs row.expression with
      | .error e => .error e
      | .ok (fs', createdFlag) =>
        if createdFlag then
          pure { st with formulas := fs', created := st.created + 1 }
        else
          pure { st with formulas := fs', updated := st.updated + 1 }

/-- One iteration of the formula loader's row loop (lines 213–275), in
source order: `total` increment, kind filter (`continue` on kinds other than
virtual/sub), window check, then resolution and storage. -/
def formulaRowStep (dry : Bool) (st : FormulaState) (row : FormulaRow) :
    Except FLoadErr FormulaState :=
  let st1 := { st with total := st.total + 1 }
  if row.kind ≠ "virtual" ∧ row.kind ≠ "sub" then
    pure st1
  else
    match windowCheck row with
    | .error e => .error e
    | .ok _ => resolveAndStore dry st1 row

/-- The formula loader's row loop. -/
def formulaLoop (dry : Bool) :
    List FormulaRow → FormulaState → Except FLoadErr FormulaState
  | [], st => .ok st
  | row :: rest, st => do
    let st' ← formulaRowStep dry st row
    formulaLoop dry rest st'

/-- `Command.handle` of `load_formulas`, from the start of the atomic
block. -/
def loadFormulas (fs : List FormulaRec) (rows : List FormulaRow) (dry : Bool) :
    Except FLoadErr FormulaState :=
  formulaLoop dry rows ⟨fs, 0, 0, 0⟩

/-- The formula store after a `load_formulas` invocation (atomic: an error
rolls every write back). -/
def loadFormulasFinal (fs : List FormulaRec) (rows : List FormulaRow)
    (dry : Bool) : List FormulaRec :=
  match loadFormulas fs rows dry with
  | .ok st => st.formulas
  | .error _ => fs

/-- The stored-window invariant of C9: `start < end` whenever `end` is
present. -/
def windowOk (f : FormulaRec) : Prop :=
  ∀ e, f.endTs = some e → f.start < e

instance (f : FormulaRec) : Decidable (windowOk f) := by
  unfold windowOk
  cases f.endTs with
  | none => exact .isTrue (by intro e h; cases h)
  | some e =>
    by_cases h : f.start < e
    · exact .isTrue (by intro e' h'; cases h'; exact h)
    · exact .isFalse (by intro c; exact h (c e rfl))

/-- Whether a formula row declares a window with `end` present and
`start >= end`. -/
def badWindow (row : FormulaRow) : Prop :=
  ∃ s e, row.start = some s ∧ row.endTs = some e ∧ e ≤ s

/-! ## Formula Evaluator (modelled from the spec)

The repository stores and loads formulas but contains no evaluator:
`models.py` says "Later, a compute_virtuals command will evaluate these
expressions over source meter readings".  The definitions below are
modelled from spec §4.3. -/

/-- Modelled from the spec: the expression DSL of §4.3 — meter references,
decimal literals, `+`, `-`, `*`, `/`, unary minus (parentheses are grammar
only). -/
inductive Expr
  | num (q : ℚ)
  | ref (m : String)
  | neg (e : Expr)
  | add (a b : Expr)
  | sub (a b : Expr)
  | mul (a b : Expr)
  | div (a b : Expr)
deriving DecidableEq

/-- Modelled from the spec: per-timestamp evaluation failures — a referenced
meter with no stored point at the timestamp (`MissingOperand`), and division
by zero. -/
inductive EvalErr
  | MissingOperand
  | DivisionByZero
deriving DecidableEq, Repr

/-- A store of meter series for evaluation: meter identifier and timestamp
to optional stored value. -/
abbrev Env := String → Nat → Option ℚ

/-- The meters an expression references. -/
def Expr.refs : Expr → List String
  | .num _ => []
  | .ref m => [m]
  | .neg e => e.refs
  | .add a b => a.refs ++ b.refs
  | .sub a b => a.refs ++ b.refs
  | .mul a b => a.refs ++ b.refs
  | .div a b => a.refs ++ b.refs

/-- Modelled from the spec: the arithmetic of an expression all of whose
operands are resolvable at the timestamp; division by zero fails that
timestamp (and that timestamp only). -/
def evalResolved (env : Env) : Expr → Nat → Except EvalErr ℚ
  | .num q, _ => .ok q
  | .ref m, t =>
    match env m t with
    | some v => .ok v
    | none => .error .MissingOperand
  | .neg e, t => do
    let x ← evalResolved env e t
    pure (-x)
  | .add a b, t => do
    let x ← evalResolved env a t
    let y ← evalResolved env b t
    pure (x + y)
  | .sub a b, t => do
    let x ← evalResolved env a t
    let y ← evalResolved env b t
    pure (x - y)
  | .mul a b, t => do
    let x ← evalResolved env a t
    let y ← evalResolved env b t
    pure (x * y)
  | .div a b, t => do
    let x ← evalResolved env a t
    let y ← evalResolved env b t
    if y = 0 then throw EvalErr.DivisionByZero else pure (x / y)

/-- Modelled from the spec: evaluation of an expression at one timestamp.
§4.3: "Evaluation at a given timestamp requires resolving every referenced
meter's … value at that exact timestamp; if any referenced meter is missing
a point at that timestamp, the whole expression's result at that timestamp
is undefined (fails with MissingOperand, not substituted as zero)."  So every
referenced meter is resolved first, and any missing point fails the
timestamp with `MissingOperand` unconditionally — only with all operands
present is the arithmetic evaluated (where division by zero fails that
point only). -/
def evalAt (env : Env) (e : Expr) (t : Nat) : Except EvalErr ℚ :=
  if e.refs.all (fun m => (env m t).isSome) then evalResolved env e t
  else .error .MissingOperand

/-- Modelled from the spec: one run of the evaluator over a batch of
timestamps — each valid timestamp yields one output point for the target
virtual meter; a failing timestamp is skipped, leaving the others
unaffected. -/
def runFormula (env : Env) (e : Expr) (tss : List Nat) : List (Nat × ℚ) :=
  tss.filterMap fun t =>
    match evalAt env e t with
    | .ok v => some (t, v)
    | .error _ => none

/-- The example environment of the spec's testable property:
A = {t1: 10, t2: 20}, B = {t1: 3}, with t1 = 1, t2 = 2. -/
def exEnv : Env := fun m t =>
  if m = "A" then
    (if t = 1 then some 10 else if t = 2 then some 20 else none)
  else if m = "B" then
    (if t = 1 then some 3 else none)
  else none

/-! ## Decidability of run results -/

instance {ε α : Type} [DecidableEq ε] [DecidableEq α] : DecidableEq (Except ε α) := fun a b =>
  match a, b with
  | .error e, .error f =>
    if h : e = f then .isTrue (by rw [h]) else .isFalse (fun c => by cases c; exact h rfl)
  | .error _, .ok _ => .isFalse (fun c => by cases c)
  | .ok _, .error _ => .isFalse (fun c => by cases c)
  | .ok x, .ok y =>
    if h : x = y then .isTrue (by rw [h]) else .isFalse (fun c => by cases c; exact h rfl)

/-! ## Concrete inputs used in the theorems -/

/-- An active Sub meter, the population the Differencer processes. -/
def subMeter : Meter := ⟨1, "HQ", .SUB, true⟩

/-- An invocation with no site scope and no bound. -/
def optsNone : Opts := ⟨none, none, none⟩

/-- Three stored Accumulated readings with strictly increasing values. -/
def dbC1 : Store :=
  [⟨1, 1, 10, "kWh", .ACTUAL, .CSV, .ACCUMULATED⟩,
   ⟨1, 2, 15, "kWh", .ACTUAL, .CSV, .ACCUMULATED⟩,
   ⟨1, 3, 21, "kWh", .ACTUAL, .CSV, .ACCUMULATED⟩]

/-- Two stored Accumulated readings; the Differencer would write a
Consumption point at ts 2, where the Accumulated point already sits. -/
def dbC2 : Store :=
  [⟨1, 1, 10, "kWh", .ACTUAL, .CSV, .ACCUMULATED⟩,
   ⟨1, 2, 15, "kWh", .ACTUAL, .CSV, .ACCUMULATED⟩]

/-- Two stored Accumulated readings forming one non-negative-delta pair. -/
def dbC3 : Store :=
  [⟨1, 1, 100, "m3", .ACTUAL, .API, .ACCUMULATED⟩,
   ⟨1, 2, 107, "m3", .ACTUAL, .API, .ACCUMULATED⟩]

/-- An accumulated series with one negative-delta interval (10 → 5). -/
def dbC4a : Store :=
  [⟨1, 1, 10, "kWh", .ACTUAL, .CSV, .ACCUMULATED⟩,
   ⟨1, 2, 5, "kWh", .ACTUAL, .CSV, .ACCUMULATED⟩]

/-- A single-point series: no interval at all, hence no anomaly. -/
def dbC4b : Store :=
  [⟨1, 1, 10, "kWh", .ACTUAL, .CSV, .ACCUMULATED⟩]

/-- Readings at ts 1 and 2 — both outside the bound [100, 200) supplied in
the C5 theorem. -/
def dbC5 : Store :=
  [⟨1, 1, 10, "kWh", .ACTUAL, .CSV, .ACCUMULATED⟩,
   ⟨1, 2, 15, "kWh", .ACTUAL, .CSV, .ACCUMULATED⟩]

/-- Two stored Accumulated readings for the idempotence claim. -/
def dbC6 : Store :=
  [⟨1, 1, 10, "kWh", .ACTUAL, .CSV, .ACCUMULATED⟩,
   ⟨1, 2, 15, "kWh", .ACTUAL, .CSV, .ACCUMULATED⟩]

/-- A series whose unit changes mid-series (kWh, then MWh): the emissions
all carry the first reading's unit. -/
def dbC10 : Store :=
  [⟨1, 1, 10, "kWh", .ACTUAL, .CSV, .ACCUMULATED⟩,
   ⟨1, 2, 15, "MWh", .ACTUAL, .CSV, .ACCUMULATED⟩,
   ⟨1, 3, 17, "MWh", .ACTUAL, .CSV, .ACCUMULATED⟩]

/-- The spec's example expression `"A - B"`. -/
def exExpr : Expr := .sub (.ref "A") (.ref "B")

/-- Meters available to the allocation-loader witness. -/
def metersC8 : List String := ["P", "C"]

/-- A self-allocation row: parent and child identifiers both `"P"`. -/
def rowsC8 : List AllocRow := [⟨"P", "P", some 50⟩]

/-- A valid formula row: virtual kind, window [1, 5). -/
def rowGoodC9 : FormulaRow := ⟨"virtual", "A - B", some 1, some 5, some ⟨7, .VIRTUAL⟩⟩

/-- An invalid formula row: end present and start = end. -/
def rowBadC9 : FormulaRow := ⟨"sub", "X + Y", some 5, some 5, some ⟨8, .SUB⟩⟩

/-! ## General lemmas about the Differencer loop -/

/-- Every attempted emission fails: building the `defaults` payload looks up
`SYSTEM` on the `Source` enum, which has no such member, so `AttributeError`
is raised before any write. -/
theorem emitPair_attrError (db : Store) (mid : Nat) (unit : String) (t1 : Nat)
    (delta : Int) : emitPair db mid unit t1 delta = .error .attributeError := rfl

/-- Every payload the pair loop computes carries the single `unit` value the
loop was given. -/
theorem diffEmissions_unit (u : String) :
    ∀ (ps : List ((Nat × Int × String) × (Nat × Int × String)))
      (e : Nat × Int × String), e ∈ diffEmissions u ps → e.2.2 = u := by
  intro ps
  induction ps with
  | nil => intro e h; simp [diffEmissions] at h
  | cons p rest ih =>
    obtain ⟨⟨t0, v0, u0⟩, t1, v1, u1⟩ := p
    intro e h
    by_cases hd : v1 - v0 < 0
    · exact ih e (by simpa [diffEmissions, hd] using h)
    · rw [diffEmissions] at h
      simp only [hd, if_false] at h
      rcases List.mem_cons.mp h with h1 | h2
      · rw [h1]
      · exact ih e h2

/-- The pair loop succeeds exactly when it attempts no emission (all deltas
negative): each attempted emission raises `AttributeError`. -/
theorem pairLoop_vs_emissions (mid : Nat) (u : String) :
    ∀ (ps : List ((Nat × Int × String) × (Nat × Int × String)))
      (db : Store) (k : Nat),
      pairLoop mid u ps db k =
        if diffEmissions u ps = [] then .ok (db, k) else .error .attributeError := by
  intro ps
  induction ps with
  | nil => intro db k; rfl
  | cons p rest ih =>
    obtain ⟨⟨t0, v0, u0⟩, t1, v1, u1⟩ := p
    intro db k
    by_cases hd : v1 - v0 < 0
    · simp [pairLoop, diffEmissions, hd, ih]
    · simp [pairLoop, diffEmissions, hd, emitPair_attrError, Bind.bind, Except.bind]

/-! ## Claim theorems -/

/-- C1.  The claim says a strictly increasing Accumulated series of n ≥ 2
points yields n−1 Consumption points, one per adjacent pair at `t1` with
value `v1 − v0`.  On the code, the loop does compute exactly those
`(t1, v1 − v0)` payloads (third conjunct), but the run raises
`AttributeError` at the first emission (`Reading.Source` has no `SYSTEM`
member), the transaction rolls back, and the store keeps no Consumption
point at all: the claimed output is never produced. -/
theorem c1_run_crashes_on_increasing_series :
    handle dbC1 [subMeter] optsNone = .error .attributeError ∧
    handleFinalStore dbC1 [subMeter] optsNone = dbC1 ∧
    meterEmissions dbC1 subMeter = [(2, 5, "kWh"), (3, 6, "kWh")] ∧
    dbC1.all (fun r => r.kind == Kind.ACCUMULATED) = true :=
  ⟨rfl, rfl, rfl, rfl⟩

/-- C2.  The claim says derived readings are upserts keyed by
(meter, timestamp, kind), so a Consumption write at a timestamp holding an
Accumulated point succeeds and both rows coexist.  On the code,
`Reading.Meta` declares `unique_together = ("meter", "ts")` — without
`kind` — so any Consumption insert at an occupied (meter, ts) raises
`IntegrityError` (first two conjuncts, for every possible payload), and the
engine run on such a store in fact dies even earlier with `AttributeError`
(third conjunct). -/
theorem c2_consumption_write_conflicts_with_accumulated :
    (∀ (v : Int) (u : String) (c : Classification) (s : Source),
       insertReading dbC2 ⟨1, 2, v, u, c, s, .CONSUMPTION⟩ = .error .integrityError) ∧
    (∀ d : RDefaults, updateOrCreate dbC2 1 2 Kind.CONSUMPTION d = .error .integrityError) ∧
    handle dbC2 [subMeter] optsNone = .error .attributeError :=
  ⟨fun _ _ _ _ => rfl, fun _ => rfl, rfl⟩

/-- C3.  The claim says every emitted Consumption point carries
source=System and that System is an admissible value of the reading's source
domain.  On the code, the `Reading.Source` choices are exactly API, CSV and
Manual — no member has the value "System" (second conjunct), the attribute
lookup `Reading.Source.SYSTEM` fails (first conjunct), and any run reaching
an emission therefore raises `AttributeError` instead of writing a
source=System point (third conjunct). -/
theorem c3_source_has_no_system_member :
    Source.attrLookup "SYSTEM" = none ∧
    (∀ s : Source, sourceValue s ≠ "System") ∧
    handle dbC3 [subMeter] optsNone = .error .attributeError :=
  ⟨rfl, fun s => by cases s <;> simp [sourceValue], rfl⟩

/-- C4 counterexample.  The claim says a negative-delta interval is surfaced
as a flagged anomaly, counted and reported in the run summary rather than
silently dropped.  On the code there is no anomaly counter: the run over a
store containing a negative-delta interval (10 → 5) terminates with exactly
the same summary line as a run over a store with no interval at all, and
leaves the store untouched — the anomaly leaves no visible trace anywhere. -/
theorem c4_negative_delta_invisible_counterexample :
    handle dbC4a [subMeter] optsNone =
      .ok (dbC4a, "Wrote/updated 0 consumption intervals.") ∧
    handle dbC4b [subMeter] optsNone =
      .ok (dbC4b, "Wrote/updated 0 consumption intervals.") ∧
    hasNegativeDelta dbC4a subMeter.id = true ∧
    hasNegativeDelta dbC4b subMeter.id = false :=
  ⟨rfl, rfl, rfl, rfl⟩

/-- C4 as amended.  For every adjacent pair with negative delta the
Differencer emits no Consumption point for that interval; the pair is
silently skipped — the loop's emission list is exactly the non-negative-delta
pairs' payloads and records nothing else. -/
theorem c4_amended_negative_delta_skipped_silently :
    ∀ (u : String) (ps : List ((Nat × Int × String) × (Nat × Int × String))),
      diffEmissions u ps =
        (ps.filter fun pq => decide (0 ≤ pq.2.2.1 - pq.1.2.1)).map
          (fun pq => (pq.2.1, pq.2.2.1 - pq.1.2.1, u)) := by
  intro u ps
  induction ps with
  | nil => rfl
  | cons p rest ih =>
    obtain ⟨⟨t0, v0, u0⟩, t1, v1, u1⟩ := p
    by_cases hd : v1 - v0 < 0
    · simp [diffEmissions, List.filter_cons, hd, not_le.mpr (sub_neg.mp hd), ih]
    · simp [diffEmissions, List.filter_cons, hd, sub_nonneg.mp (not_lt.mp hd), ih]

/-- C5.  The claim says a supplied [since, until) bound restricts each
meter's input sequence.  On the code, `add_arguments` declares `--since` and
`--until` but `handle` never reads them: the whole run is invariant in the
bound (first conjunct, definitionally), the per-meter fetch has no timestamp
filter (second conjunct: readings at ts 1 and 2 are fetched under bound
[100, 200)), and those out-of-bound readings still drive the differencing
(third conjunct: the run attempts an emission and dies with
`AttributeError`, instead of processing an empty in-bound sequence). -/
theorem c5_since_until_ignored :
    (∀ (db : Store) (ms : List Meter) (site : Option String) (s u : Option Nat),
       handle db ms ⟨site, s, u⟩ = handle db ms ⟨site, none, none⟩) ∧
    fetchReads dbC5 subMeter.id = [(1, 10, "kWh"), (2, 15, "kWh")] ∧
    handle dbC5 [subMeter] ⟨none, some 100, some 200⟩ = .error .attributeError :=
  ⟨fun _ _ _ _ _ => rfl, rfl, rfl⟩

/-- C6.  The claim says a second run updates the first run's Consumption
rows in place, never appending duplicates (idempotence via upsert).  On the
code, every run that would write anything raises `AttributeError` at its
first emission and rolls back: the first run stores nothing (so there is no
row for a second run to update), the second run fails identically, and the
store never holds a Consumption row at all. -/
theorem c6_reruns_store_nothing :
    handle dbC6 [subMeter] optsNone = .error .attributeError ∧
    handleFinalStore dbC6 [subMeter] optsNone = dbC6 ∧
    handleFinalStore (handleFinalStore dbC6 [subMeter] optsNone) [subMeter] optsNone = dbC6 ∧
    dbC6.all (fun r => r.kind == Kind.ACCUMULATED) = true :=
  ⟨rfl, rfl, rfl, rfl⟩

/-- C10.  Whenever the per-meter fetch returns a first reading `r0`, every
payload the Differencer computes for that meter carries `r0`'s unit
(`unit = reads[0][2]`), regardless of the units on the readings the delta
was computed from. -/
theorem c10_unit_carried_from_first_read :
    ∀ (db : Store) (m : Meter) (r0 : Nat × Int × String)
      (rest : List (Nat × Int × String)),
      fetchReads db m.id = r0 :: rest →
      ∀ e ∈ meterEmissions db m, e.2.2 = r0.2.2 := by
  intro db m r0 rest hf e he
  unfold meterEmissions at he
  rw [hf] at he
  cases rest with
  | nil => simp at he
  | cons r1 rest' => exact diffEmissions_unit r0.2.2 _ e he

/-- C10 witness: on a series whose unit changes from kWh to MWh after the
first point, the emission at ts 3 (computed from two MWh readings) still
carries "kWh". -/
theorem c10_unit_carried_from_first_read_witness :
    ((3 : Nat), (2 : Int), "kWh").2.2 = (((1 : Nat), (10 : Int), "kWh") : Nat × Int × String).2.2 :=
  c10_unit_carried_from_first_read dbC10 subMeter (1, 10, "kWh")
    [(2, 15, "MWh"), (3, 17, "MWh")] rfl (3, 2, "kWh") (by decide)

/-! ## Evaluator lemma and C7 -/

/-- C7.  Modelled from the spec (no evaluator exists in the source): for
every expression — division included — and every timestamp at which some
referenced meter has no stored point, evaluation at that timestamp fails
with `MissingOperand`, unconditionally: references are resolved before any
arithmetic, so the missing value is never replaced by zero and a division
by zero cannot preempt the failure.  In the spec's own example, `"A - B"`
with A = {1: 10, 2: 20} and B = {1: 3}, the run over both timestamps
outputs exactly one point, 7 at t = 1; t = 2 is skipped while t = 1 is
unaffected. -/
theorem c7_missing_operand_fails_timestamp :
    (∀ (env : Env) (e : Expr) (m : String) (t : Nat),
       m ∈ e.refs → env m t = none →
       evalAt env e t = .error .MissingOperand) ∧
    runFormula exEnv exExpr [1, 2] = [(1, 7)] := by
  constructor
  · intro env e m t hm henv
    have hall : ¬(e.refs.all fun n => (env n t).isSome) = true := by
      intro hall
      have hs := List.all_eq_true.mp hall m hm
      rw [henv] at hs
      simp at hs
    unfold evalAt
    rw [if_neg hall]
  · have hA1 : exEnv "A" 1 = some 10 := rfl
    have hB1 : exEnv "B" 1 = some 3 := rfl
    have hall1 : (exExpr.refs.all fun n => (exEnv n 1).isSome) = true := rfl
    have hall2 : ¬(exExpr.refs.all fun n => (exEnv n 2).isSome) = true := by decide
    have h1 : evalAt exEnv exExpr 1 = .ok 7 := by
      unfold evalAt
      rw [if_pos hall1]
      simp [exExpr, evalResolved, hA1, hB1, Bind.bind, Except.bind, pure, Except.pure]
      norm_num
    have h2 : evalAt exEnv exExpr 2 = .error .MissingOperand := by
      unfold evalAt
      rw [if_neg hall2]
    simp [runFormula, List.filterMap_cons, h1, h2]

/-- C7 witness: at t = 2 the reference B has no stored point, and the
example expression fails there with `MissingOperand`. -/
theorem c7_missing_operand_fails_timestamp_witness :
    evalAt exEnv exExpr 2 = .error .MissingOperand :=
  c7_missing_operand_fails_timestamp.1 exEnv exExpr "B" 2 (by decide) rfl

/-! ## Allocation-loader lemmas (for C8) -/

/-- A row the claim calls invalid: self-allocation (normalized parent and
child identifiers equal) or a parsed percent outside [0, 100]. -/
def badAllocRow (r : AllocRow) : Prop :=
  norm r.parent = norm r.child ∨ ∃ p, r.pct = some p ∧ (p < 0 ∨ 100 < p)

/-- An invalid row makes its loop iteration raise `CommandError`: the
self-allocation check fires at line 106, the range check at line 116. -/
theorem allocRowStep_bad (meters : List String) (dry : Bool) (st : AllocState)
    (r : AllocRow) (hb : badAllocRow r) :
    allocRowStep meters dry st r = .error .commandError := by
  rcases hb with hself | ⟨p, hp, hrange⟩
  · simp [allocRowStep, hself, throw, throwThe, MonadExceptOf.throw]
  · by_cases hself : norm r.parent = norm r.child
    · simp [allocRowStep, hself, throw, throwThe, MonadExceptOf.throw]
    · have hrange' : p < 0 ∨ p > 100 := hrange
      simp [allocRowStep, hself, hp, hrange', throw, throwThe, MonadExceptOf.throw]

/-- If any row of the file is invalid, the whole row loop errors (with the
invalid row's `CommandError`, or an earlier row's). -/
theorem allocLoop_bad (meters : List String) (dry : Bool) (r : AllocRow)
    (hb : badAllocRow r) :
    ∀ (rows : List AllocRow), r ∈ rows →
      ∀ st, allocLoop meters dry rows st = .error .commandError := by
  intro rows
  induction rows with
  | nil => intro hmem; cases hmem
  | cons row rest ih =>
    intro hmem st
    rcases List.mem_cons.mp hmem with heq | hmem'
    · subst heq
      simp [allocLoop, allocRowStep_bad meters dry st r hb, Bind.bind, Except.bind]
    · cases hstep : allocRowStep meters dry st row with
      | error e =>
        cases e
        simp [allocLoop, hstep, Bind.bind, Except.bind]
      | ok st' =>
        simp only [allocLoop, Bind.bind, Except.bind, hstep]
        exact ih hmem' st'

/-- C8.  Any allocation row with a percent outside [0, 100] or with parent
identifier equal to child identifier makes the `load_allocations` run fail
with `CommandError`, and — because the whole row loop executes inside
`transaction.atomic()` — the edge store keeps none of the invocation's
writes. -/
theorem c8_invalid_allocation_row_aborts_run :
    ∀ (edges : List AllocEdge) (meters : List String) (rows : List AllocRow)
      (dry : Bool) (r : AllocRow), r ∈ rows →
      (norm r.parent = norm r.child ∨ ∃ p, r.pct = some p ∧ (p < 0 ∨ 100 < p)) →
      loadAllocations edges meters rows dry = .error .commandError ∧
      loadAllocationsFinal edges meters rows dry = edges := by
  intro edges meters rows dry r hmem hb
  have h : loadAllocations edges meters rows dry = .error .commandError :=
    allocLoop_bad meters dry r hb rows hmem ⟨edges, 0, 0, 0⟩
  refine ⟨h, ?_⟩
  unfold loadAllocationsFinal
  rw [h]

/-- C8 witness: a concrete self-allocation row ("P" → "P", 50%) aborts the
run and leaves the (empty) edge store untouched. -/
theorem c8_invalid_allocation_row_aborts_run_witness :
    loadAllocations [] metersC8 rowsC8 false = .error .commandError ∧
    loadAllocationsFinal [] metersC8 rowsC8 false = [] :=
  c8_invalid_allocation_row_aborts_run [] metersC8 rowsC8 false ⟨"P", "P", some 50⟩
    (by simp [rowsC8]) (Or.inl rfl)

/-! ## Formula-loader lemmas (for C9) -/

/-- A passed window check certifies the row's window: if both bounds are
present, start < end. -/
theorem windowCheck_ok (row : FormulaRow) (h : windowCheck row = .ok ()) :
    ∀ sv e, row.start = some sv → row.endTs = some e → sv < e := by
  intro sv e hs he
  unfold windowCheck at h
  simp only [he, hs] at h
  by_cases hse : sv ≥ e
  · rw [if_pos hse] at h
    simp [throw, throwThe, MonadExceptOf.throw] at h
  · exact lt_of_not_ge hse

/-- The upsert only ever stores a window the caller has validated: the
update path touches only `expression`, and the insert path stores exactly
the checked (start, end). -/
theorem formulaUpsert_preserves (fs : List FormulaRec) (t : Nat) (eo : Option Nat)
    (sv : Nat) (expr : String) (fs' : List FormulaRec) (flag : Bool)
    (inv : ∀ f ∈ fs, windowOk f)
    (hw : ∀ e, eo = some e → sv < e)
    (h : formulaUpsert fs t (some sv) eo expr = .ok (fs', flag)) :
    ∀ f ∈ fs', windowOk f := by
  simp only [formulaUpsert] at h
  by_cases hex : (fs.any fun f => f.target == t && f.start == sv && f.endTs == eo) = true
  · rw [if_pos hex] at h
    simp only [Except.ok.injEq, Prod.mk.injEq] at h
    obtain ⟨hfs, _⟩ := h
    intro f hf
    rw [← hfs] at hf
    obtain ⟨g, hg, hfe⟩ := List.mem_map.mp hf
    by_cases hc : (g.target == t && g.start == sv && g.endTs == eo) = true
    · rw [if_pos hc] at hfe
      rw [← hfe]
      intro e he
      exact inv g hg e he
    · rw [if_neg hc] at hfe
      rw [← hfe]
      exact inv g hg
  · rw [if_neg hex] at h
    simp only [Except.ok.injEq, Prod.mk.injEq] at h
    obtain ⟨hfs, _⟩ := h
    intro f hf
    rw [← hfs] at hf
    rcases List.mem_append.mp hf with hmem | hmem
    · exact inv f hmem
    · rw [List.mem_singleton.mp hmem]
      intro e he
      exact hw e he

/-- The post-window-check tail of an iteration preserves the stored-window
invariant, given the certificate the window check produced. -/
theorem resolveAndStore_preserves (dry : Bool) (st st' : FormulaState)
    (row : FormulaRow) (inv : ∀ f ∈ st.formulas, windowOk f)
    (hwin : ∀ sv e, row.start = some sv → row.endTs = some e → sv < e)
    (h : resolveAndStore dry st row = .ok st') :
    ∀ f ∈ st'.formulas, windowOk f := by
  unfold resolveAndStore at h
  cases hres : row.resolved with
  | none => simp only [hres] at h; simp [throw, throwThe, MonadExceptOf.throw] at h
  | some target =>
    simp only [hres] at h
    by_cases htype :
        target.meter_type ≠ (if row.kind = "virtual" then MeterType.VIRTUAL else MeterType.SUB)
    · rw [if_pos htype] at h
      simp [throw, throwThe, MonadExceptOf.throw] at h
    · rw [if_neg htype] at h
      by_cases hdry : dry = true
      · rw [if_pos hdry] at h
        simp only [pure, Except.pure, Except.ok.injEq] at h
        rw [← h]
        exact inv
      · rw [if_neg hdry] at h
        cases hst : row.start with
        | none =>
          rw [hst] at h
          simp [formulaUpsert] at h
        | some sv =>
          rw [hst] at h
          cases hup : formulaUpsert st.formulas target.id (some sv) row.endTs row.expression with
          | error e => simp only [hup] at h; exact (Except.noConfusion h)
          | ok pr =>
            obtain ⟨fs', flag⟩ := pr
            simp only [hup] at h
            have hfsinv : ∀ f ∈ fs', windowOk f :=
              formulaUpsert_preserves st.formulas target.id row.endTs sv
                row.expression fs' flag inv (fun e he => hwin sv e hst he) hup
            cases flag with
            | true =>
              simp only [if_true, pure, Except.pure, Except.ok.injEq] at h
              rw [← h]
              exact hfsinv
            | false =>
              simp only [Bool.false_eq_true, if_false, pure, Except.pure,
                Except.ok.injEq] at h
              rw [← h]
              exact hfsinv

/-- A successful loop iteration preserves the stored-window invariant. -/
theorem formulaRowStep_preserves (dry : Bool) (st st' : FormulaState)
    (row : FormulaRow) (inv : ∀ f ∈ st.formulas, windowOk f)
    (h : formulaRowStep dry st row = .ok st') :
    ∀ f ∈ st'.formulas, windowOk f := by
  unfold formulaRowStep at h
  by_cases hk : row.kind ≠ "virtual" ∧ row.kind ≠ "sub"
  · rw [if_pos hk] at h
    simp only [pure, Except.pure, Except.ok.injEq] at h
    rw [← h]
    exact inv
  · rw [if_neg hk] at h
    cases hwc : windowCheck row with
    | error e => simp only [hwc] at h; exact (Except.noConfusion h)
    | ok u =>
      cases u
      simp only [hwc] at h
      exact resolveAndStore_preserves dry { st with total := st.total + 1 } st' row inv
        (windowCheck_ok row hwc) h

/-- The loop preserves the stored-window invariant. -/
theorem formulaLoop_preserves (dry : Bool) :
    ∀ (rows : List FormulaRow) (st st' : FormulaState),
      formulaLoop dry rows st = .ok st' →
      (∀ f ∈ st.formulas, windowOk f) → ∀ f ∈ st'.formulas, windowOk f := by
  intro rows
  induction rows with
  | nil =>
    intro st st' h inv
    simp only [formulaLoop, Except.ok.injEq] at h
    rw [← h]
    exact inv
  | cons row rest ih =>
    intro st st' h inv
    cases hstep : formulaRowStep dry st row with
    | error e =>
      simp only [formulaLoop, Bind.bind, Except.bind, hstep] at h
      exact (Except.noConfusion h)
    | ok st1 =>
      simp only [formulaLoop, Bind.bind, Except.bind, hstep] at h
      exact ih st1 st' h (formulaRowStep_preserves dry st st1 row inv hstep)

/-- A virtual/sub row whose window has `end` present and `start >= end`
makes its loop iteration raise `CommandError` (line 234), before resolution,
type enforcement, dry-run check or upsert. -/
theorem formulaRowStep_bad (dry : Bool) (st : FormulaState) (r : FormulaRow)
    (hkind : r.kind = "virtual" ∨ r.kind = "sub") (hbw : badWindow r) :
    formulaRowStep dry st r = .error .commandError := by
  obtain ⟨s, e, hs, he, hle⟩ := hbw
  have hk : ¬(r.kind ≠ "virtual" ∧ r.kind ≠ "sub") := by
    rcases hkind with h | h <;> simp [h]
  have hwc : windowCheck r = .error .commandError := by
    unfold windowCheck
    simp only [he, hs]
    rw [if_pos hle]
    rfl
  unfold formulaRowStep
  rw [if_neg hk]
  simp only [hwc]

/-- If any virtual/sub row of the file has an invalid window, the whole row
loop errors (with that row's `CommandError`, or an earlier row's error). -/
theorem formulaLoop_bad (dry : Bool) (r : FormulaRow)
    (hkind : r.kind = "virtual" ∨ r.kind = "sub") (hbw : badWindow r) :
    ∀ (rows : List FormulaRow), r ∈ rows →
      ∀ st, ∃ err, formulaLoop dry rows st = .error err := by
  intro rows
  induction rows with
  | nil => intro hmem; cases hmem
  | cons row rest ih =>
    intro hmem st
    rcases List.mem_cons.mp hmem with heq | hmem'
    · subst heq
      exact ⟨.commandError,
        by simp [formulaLoop, formulaRowStep_bad dry st r hkind hbw, Bind.bind, Except.bind]⟩
    · cases hstep : formulaRowStep dry st row with
      | error e => exact ⟨e, by simp [formulaLoop, hstep, Bind.bind, Except.bind]⟩
      | ok st1 =>
        obtain ⟨err, herr⟩ := ih hmem' st1
        exact ⟨err, by simp [formulaLoop, hstep, Bind.bind, Except.bind, herr]⟩

/-- C9.  Every Formula that reaches the store satisfies `start < end`
whenever `end` is present: (1) a `load_formulas` run preserves the
stored-window invariant; (2) any virtual/sub row with `end` present and
`start >= end` makes its own iteration raise `CommandError` and the whole
run fail, and — the loop being atomic — leaves the formula store exactly as
it was; (3) `Formula.clean` rejects such a window with a
`ValidationError`. -/
theorem c9_stored_formula_windows_valid :
    ∀ (fs : List FormulaRec) (rows : List FormulaRow) (dry : Bool),
      ((∀ f ∈ fs, windowOk f) → ∀ f ∈ loadFormulasFinal fs rows dry, windowOk f) ∧
      (∀ r ∈ rows, (r.kind = "virtual" ∨ r.kind = "sub") → badWindow r →
         (∀ st, formulaRowStep dry st r = .error .commandError) ∧
         loadFormulasFinal fs rows dry = fs) ∧
      (∀ s e : Nat, e ≤ s → Formula.clean s (some e) = .error .commandError) := by
  intro fs rows dry
  refine ⟨?_, ?_, ?_⟩
  · intro inv f hf
    unfold loadFormulasFinal at hf
    cases hrun : loadFormulas fs rows dry with
    | ok st =>
      rw [hrun] at hf
      unfold loadFormulas at hrun
      exact formulaLoop_preserves dry rows ⟨fs, 0, 0, 0⟩ st hrun inv f hf
    | error e =>
      rw [hrun] at hf
      exact inv f hf
  · intro r hmem hkind hbw
    refine ⟨fun st => formulaRowStep_bad dry st r hkind hbw, ?_⟩
    obtain ⟨err, herr⟩ := formulaLoop_bad dry r hkind hbw rows hmem ⟨fs, 0, 0, 0⟩
    unfold loadFormulasFinal loadFormulas
    rw [herr]
  · intro s e hle
    show (if s ≥ e then Except.error LoadErr.commandError else Except.ok ()) =
      Except.error LoadErr.commandError
    exact if_pos hle

/-- C9 witness: loading a valid virtual row stores its formula with window
[1, 5), which satisfies the invariant; loading the invalid row
(start = end = 5) aborts and leaves the empty store empty. -/
theorem c9_stored_formula_windows_valid_witness :
    windowOk ⟨7, "A - B", 1, some 5⟩ ∧ loadFormulasFinal [] [rowBadC9] false = [] := by
  constructor
  · exact (c9_stored_formula_windows_valid [] [rowGoodC9] false).1
      (by simp) ⟨7, "A - B", 1, some 5⟩ (by decide)
  · exact ((c9_stored_formula_windows_valid [] [rowBadC9] false).2.1 rowBadC9
      (by simp [rowBadC9]) (Or.inr rfl) ⟨5, 5, rfl, rfl, le_refl 5⟩).2

end UELogic
